import Mathlib

/-!
Verification of the Telescope-Search extension's result pipeline and
virtualized preview renderer, shallowly embedded from the TypeScript source
(`src/extension.ts` with its `runRipgrep` helper, `src/getHtmlWebView.ts`).

JavaScript strings are modelled as Lean `String`s (sequences of characters);
string primitives used by the source (`split`, `trim`, `parseInt`, `join`,
`path.basename`) are re-implemented below as structurally recursive
functions so that concrete inputs evaluate inside the kernel.  A JavaScript
number that may be `NaN` (the result of `parseInt`) is modelled as
`Option Int`, with `none` standing for `NaN`.
-/

/-- JS `s.split(c)` on the character level: splits into the (possibly empty)
chunks between occurrences of `c`.  `splitOnChar c [] = [[]]`, matching
`"".split(c) = [""]`. -/
def splitOnChar (c : Char) : List Char → List (List Char)
  | [] => [[]]
  | x :: xs =>
    match splitOnChar c xs with
    | [] => [[]]
    | h :: t => if x = c then [] :: h :: t else (x :: h) :: t

/-- JS `String.prototype.split` with a single-character separator. -/
def jsSplit (c : Char) (s : String) : List String :=
  (splitOnChar c s.toList).map (fun cs => String.mk cs)

/-- JS `Array.prototype.join(sep)`. -/
def joinWith (sep : String) : List String → String
  | [] => ""
  | [x] => x
  | x :: xs => x ++ sep ++ joinWith sep xs

/-- JS `String.prototype.trim()`: strip leading and trailing whitespace. -/
def jsTrim (s : String) : String :=
  String.mk (((s.toList.dropWhile Char.isWhitespace).reverse.dropWhile
    Char.isWhitespace).reverse)

/-- Digit run to its decimal value. -/
def digitsToNat (ds : List Char) : Nat :=
  ds.foldl (fun n c => 10 * n + (c.toNat - 48)) 0

/-- JS `parseInt(s, 10)`: skip leading whitespace, read an optional sign and
then the longest prefix of decimal digits; `NaN` (here `none`) when no digit
is found. -/
def jsParseInt (s : String) : Option Int :=
  let t := s.toList.dropWhile Char.isWhitespace
  let signAndRest : Int × List Char :=
    match t with
    | '-' :: cs => (-1, cs)
    | '+' :: cs => (1, cs)
    | cs => (1, cs)
  let ds := signAndRest.2.takeWhile Char.isDigit
  if ds.isEmpty then none else some (signAndRest.1 * (digitsToNat ds : Int))

/-- JS number-to-string coercion for an `Option Int` (i.e. int-or-NaN). -/
def jsNumToString : Option Int → String
  | none => "NaN"
  | some n => toString n

/-- Node `path.basename`: the last `/`-separated component. -/
def jsBasename (p : String) : String :=
  (jsSplit '/' p).getLastD p

/-- Node `path.join(a, b)`, modulo path normalization (no `.`/`..` segments
occur in ripgrep's relative output paths). -/
def jsPathJoin (a b : String) : String :=
  a ++ "/" ++ b

/-- One search result produced by `runRipgrep` (source type `RipgrepResult`).
`line` is `parseInt(parts[1], 10)`, an int-or-NaN. -/
structure RipgrepResult where
  label : String
  description : String
  filePath : String
  line : Option Int
deriving Repr, DecidableEq

/-- One line of ripgrep `--vimgrep` output, as parsed inside `runRipgrep`
(`extension.ts` lines 519–533): split on `:`, drop the line when fewer than
4 fields, otherwise rejoin fields from the 4th on (and `.trim()` the text). -/
def parseRipgrepLine (rootPath rawLine : String) : Option RipgrepResult :=
  let parts := jsSplit ':' rawLine
  if parts.length < 4 then none
  else
    let lineNumber := jsParseInt (parts.getD 1 "")
    some {
      label := jsBasename (parts.getD 0 "") ++ ":" ++ jsNumToString lineNumber
      description := jsTrim (joinWith ":" (parts.drop 3))
      filePath := jsPathJoin rootPath (parts.getD 0 "")
      line := lineNumber }

/-- The whole-stdout parse in `runRipgrep`'s close handler: split on
newlines, keep non-empty lines, map the per-line parse and keep the
successes (`.map(...).filter(p => p !== null)`). -/
def parseStdout (rootPath stdout : String) : List RipgrepResult :=
  ((jsSplit '\n' stdout).filter (fun l => l.length > 0)).filterMap
    (parseRipgrepLine rootPath)

/-- The argument vector passed to `spawn` for ripgrep. -/
def ripgrepArgs (searchTerm : String) : List String :=
  ["-F", "--vimgrep", "--ignore-case", searchTerm, "."]

/-- The command line reported in the exit-error message
(`command + ' ' + args.join(' ')`). -/
def ripgrepCommandLine (searchTerm : String) : String :=
  "rg " ++ joinWith " " (ripgrepArgs searchTerm)

/-- The rejection value built for an unexpected exit code. -/
def runRipgrepExitError (stderrData commandLine : String) : String :=
  "Ripgrep Error: " ++ stderrData ++ "\nCommand: " ++ commandLine

/-- The rejection value built when the process cannot be spawned at all. -/
def runRipgrepSpawnError (osMessage : String) : String :=
  "Failed to start Ripgrep process: " ++ osMessage

/-- The `close`-event handler of `runRipgrep`: exit codes other than 0 and 1
reject with the exit error; otherwise the accumulated stdout is parsed and
the promise resolves. -/
def runRipgrepClose (searchTerm rootPath : String) (code : Int)
    (stdoutData stderrData : String) : Except String (List RipgrepResult) :=
  if code ≠ 0 ∧ code ≠ 1 then
    .error (runRipgrepExitError stderrData (ripgrepCommandLine searchTerm))
  else
    .ok (parseStdout rootPath stdoutData)

/-- How a `runRipgrep` call begins: either it resolves immediately (no
workspace folder open) or it spawns the ripgrep process. -/
inductive RunOutcome where
  | immediate (results : List RipgrepResult)
  | spawned (cwd : String) (cmd : String) (args : List String)
deriving Repr, DecidableEq

/-- The workspace check at the top of `runRipgrep`: with no workspace
folders the promise resolves at once with a single placeholder record and
no process is started. -/
def runRipgrepStart (workspaceFolders : Option (List String))
    (searchTerm : String) : RunOutcome :=
  match workspaceFolders with
  | none => .immediate [{
      label := "Please open a project folder first."
      description := ""
      filePath := ""
      line := some 0 }]
  | some ws => .spawned (ws.headD "") "rg" (ripgrepArgs searchTerm)

example : jsSplit ':' "a.ts:3:5:const foo = 1;" = ["a.ts", "3", "5", "const foo = 1;"] := by decide
example : jsSplit ':' "" = [""] := by decide
example : jsParseInt "12abc" = some 12 := by decide
example : jsParseInt "abc" = none := by decide
example : jsTrim "  x :y  " = "x :y" := by decide
example : parseRipgrepLine "/w" "a.ts:3:5:const foo = 1;" =
    some { label := "a.ts:3", description := "const foo = 1;",
           filePath := "/w/a.ts", line := some 3 } := by decide
example : parseRipgrepLine "/w" "a.ts:3:x" = none := by decide

/-- The preview window computation of the `getPreview` handler
(`extension.ts`, windowed version): center `linesToRender` lines on the
target, clamp the end to the file, and slide the start back when the
clamped window came out short.  `Int./` on nonnegative operands agrees with
the `Math.floor` division in the source. -/
def computeWindow (targetLineIndex totalLines linesToRender : Int) : Int × Int :=
  let startLine := max 0 (targetLineIndex - linesToRender / 2)
  let endLine := min totalLines (startLine + linesToRender)
  if endLine - startLine < linesToRender then
    (max 0 (endLine - linesToRender), endLine)
  else
    (startLine, endLine)

/-- A Shiki token span: a run of source text with one display color. -/
structure Token where
  content : String
  color : String
deriving Repr, DecidableEq

/-- A tokenized source line (ordered token spans). -/
abbrev TokenLine := List Token

/-- Final value of slot `i` of the `new Array(totalLines)` filled by the
three stitching loops of the `getPreview` handler: `[]` before the window,
the tokenized line inside it, `[]` from `endLine` on (the third loop runs
last), and a never-assigned hole (`none`) when the tokenizer returned fewer
lines than the window holds. -/
def stitchEntry (startLine endLine : Nat) (visible : List TokenLine)
    (i : Nat) : Option TokenLine :=
  if i < startLine then some []
  else if endLine ≤ i then some []
  else visible.get? (i - startLine)

/-- The stitched full-length token table sent in a `previewContent`
response. -/
def stitchTokenTable (totalLines startLine endLine : Nat)
    (visible : List TokenLine) : List (Option TokenLine) :=
  (List.range totalLines).map (stitchEntry startLine endLine visible)

/-- The token-table pipeline of the windowed `getPreview` handler: compute
the window for the 1-based target line over the file's lines, tokenize the
visible slice, and stitch the full-length table.  `codeToTokens` stands for
the external Shiki call on the joined visible lines; its contract (§4.4 of
the spec) is that it emits one `TokenLine` per input line. -/
def backendPreviewTable (allLines : List String) (targetLine1 : Int)
    (codeToTokens : List String → List TokenLine) : List (Option TokenLine) :=
  let totalLines := allLines.length
  let w := computeWindow (targetLine1 - 1) (totalLines : Int) 100
  let s := w.1.toNat
  let e := w.2.toNat
  let visible := codeToTokens ((allLines.drop s).take (e - s))
  stitchTokenTable totalLines s e visible

/-- Content of one painted preview row: a blank placeholder or token
spans. -/
inductive RowContent where
  | blank
  | spans (tokens : TokenLine)
deriving Repr, DecidableEq

/-- One DOM row produced by the `previewContent` render loop: a 1-based
line-number gutter plus the line content. -/
structure PaintRow where
  lineNumber : Nat
  content : RowContent
deriving Repr, DecidableEq

/-- The `previewContent` render loop of `getHtmlWebView.ts` (lines
508–551): for every `i` in the paint window `[startLine, endLine)` emit a
row numbered `i + 1`, blank when the token line is empty. -/
def paintRows (tokenLines : List TokenLine) (startLine endLine : Nat) :
    List PaintRow :=
  (List.range' startLine (endLine - startLine)).map (fun i =>
    { lineNumber := i + 1
      content :=
        if (tokenLines.getD i []).length = 0 then RowContent.blank
        else RowContent.spans (tokenLines.getD i []) })

/-- What the `search` message handler does: short-circuit to empty results,
or invoke `runRipgrep`. -/
inductive SearchAction where
  | results (data : List RipgrepResult)
  | invokeRipgrep (term : String)
deriving Repr, DecidableEq

/-- The `search` branch of the message listener: falsy or ≤2-character
terms answer `results([])` without running ripgrep. -/
def searchHandler (searchTerm : String) : SearchAction :=
  if searchTerm = "" ∨ searchTerm.length ≤ 2 then .results []
  else .invokeRipgrep searchTerm

/-- Backend state relevant to highlighter lifecycle: whether the Shiki
module loaded and whether the highlighter instance exists. -/
structure ExtState where
  shikiLoaded : Bool
  highlighterPresent : Bool
deriving Repr, DecidableEq

/-- A `getPreview` request as received from the webview (both fields arrive
as strings; an empty string is the falsy case of the source's guard). -/
structure PreviewRequest where
  filePath : String
  line : String
  searchTerm : String
deriving Repr, DecidableEq

/-- Observable effect of running the `getPreview` handler up to its guard:
the (unchanged) state, how many highlighter initialization attempts the
handler performed, and whether it proceeded past the guard to produce a
preview. -/
structure PreviewStep where
  state : ExtState
  initAttempts : Nat
  proceeds : Bool
deriving Repr, DecidableEq

/-- The guard of the `getPreview` branch (`if (!previewFilePath ||
!previewLine || !highlighter) return;`): with the highlighter absent the
handler returns early, touching nothing and attempting no
initialization. -/
def getPreviewHandler (st : ExtState) (req : PreviewRequest) : PreviewStep :=
  if req.filePath = "" ∨ req.line = "" ∨ st.highlighterPresent = false then
    { state := st, initAttempts := 0, proceeds := false }
  else
    { state := st, initAttempts := 0, proceeds := true }

/-- The fallback block at the top of the `vscode-telescope.telescope`
command callback: when the highlighter is absent and the Shiki module is
loaded, attempt `createHighlighter` once (`initSucceeds` abstracts the
outcome of that awaited call).  Returns the new state and the number of
initialization attempts performed. -/
def telescopeCommandInit (st : ExtState) (initSucceeds : Bool) :
    ExtState × Nat :=
  if st.highlighterPresent = false ∧ st.shikiLoaded = true then
    ({ st with highlighterPresent := initSucceeds }, 1)
  else
    (st, 0)

/-- Theme-related backend state: the active Shiki theme used by every
tokenize call, and the persisted preference in `globalState`. -/
structure ThemeState where
  currentTheme : String
  persistedTheme : String
deriving Repr, DecidableEq

/-- User-visible outcome of the theme quick-pick accept handler. -/
inductive ThemeNotice where
  | themeSet (name : String)
  | loadFailed (name : String)
  | noChange
deriving Repr, DecidableEq

/-- The `onDidAccept` handler of the theme quick-pick (`extension.ts`):
for a newly chosen theme, `loadTheme` is awaited (`loadSucceeds` abstracts
its outcome); only on success are the active theme and the persisted
preference updated, and on failure an error notification is shown while the
state is left untouched. -/
def themeOnDidAccept (st : ThemeState) (selected : Option String)
    (loadSucceeds : Bool) : ThemeState × ThemeNotice :=
  match selected with
  | none => (st, .noChange)
  | some chosen =>
    if chosen ≠ st.currentTheme then
      if loadSucceeds then
        ({ currentTheme := chosen, persistedTheme := chosen },
          .themeSet chosen)
      else
        (st, .loadFailed chosen)
    else
      (st, .noChange)

/-- What the webview's `results` message handler renders. -/
inductive ResultsView where
  | noResults
  | items (rows : List RipgrepResult)
deriving Repr, DecidableEq

/-- The `results` branch of the webview message listener: an empty list
renders the "No results found." notice, anything else renders one
`file-item` row per record. -/
def renderResults (results : List RipgrepResult) : ResultsView :=
  if results.length = 0 then .noResults
  else .items results

example : computeWindow 4 10 100 = (0, 10) := by decide
example : computeWindow 500 1000 100 = (450, 550) := by decide
example : computeWindow 990 1000 100 = (900, 1000) := by decide
example : computeWindow 3 1000 100 = (0, 100) := by decide
example : searchHandler "ab" = .results [] := by decide
example : searchHandler "abc" = .invokeRipgrep "abc" := by decide

/-- C2: for every target line, total line count `≥ 0`, and window size
`> 0`, the window computed by `computeWindow` satisfies
`0 ≤ start ≤ end ≤ total`, has `end - start = min size total` whenever
`total ≥ size`, and contains the target whenever `0 ≤ target < total`. -/
theorem claim_C2_window_invariants (target total size : Int)
    (htotal : 0 ≤ total) (hsize : 0 < size) :
    0 ≤ (computeWindow target total size).1 ∧
    (computeWindow target total size).1 ≤ (computeWindow target total size).2 ∧
    (computeWindow target total size).2 ≤ total ∧
    (size ≤ total →
      (computeWindow target total size).2 - (computeWindow target total size).1
        = min size total) ∧
    (0 ≤ target → target < total →
      (computeWindow target total size).1 ≤ target ∧
        target < (computeWindow target total size).2) := by
  unfold computeWindow
  dsimp only
  split <;> omega

/-- Closed instance of the windowing invariants at target 5, a 10-line
file, window size 100. -/
theorem claim_C2_window_invariants_witness :
    (0 : Int) ≤ 10 ∧ (0 : Int) < 100 ∧
    (computeWindow 5 10 100).1 = 0 ∧ (computeWindow 5 10 100).2 = 10 ∧
    ((computeWindow 5 10 100).1 ≤ 5 ∧ (5 : Int) < (computeWindow 5 10 100).2) :=
  ⟨by decide, by decide, by decide, by decide,
    (claim_C2_window_invariants 5 10 100 (by decide) (by decide)).2.2.2.2
      (by decide) (by decide)⟩

/-- C7: a search term of length at most 2 (the empty term included) makes
the `search` handler answer an empty result list without invoking
ripgrep. -/
theorem claim_C7_short_term_short_circuit (term : String)
    (h : term.length ≤ 2) : searchHandler term = .results [] := by
  unfold searchHandler
  rw [if_pos (Or.inr h)]

/-- Closed instance of the short-circuit at the two-character term "ab". -/
theorem claim_C7_short_term_short_circuit_witness :
    ("ab" : String).length ≤ 2 ∧ searchHandler "ab" = .results [] :=
  ⟨by decide, claim_C7_short_term_short_circuit "ab" (by decide)⟩

/-- C8: when loading a newly chosen theme fails, the active theme and the
persisted preference are unchanged and the user sees the failure notice;
on success the active theme (used by all subsequent tokenize calls, which
read `currentTheme`) becomes the chosen one; and the active theme never
changes except through a successful load. -/
theorem claim_C8_theme_switch (st : ThemeState) (chosen : String)
    (hnew : chosen ≠ st.currentTheme) :
    themeOnDidAccept st (some chosen) false = (st, .loadFailed chosen) ∧
    (themeOnDidAccept st (some chosen) true).1 =
      { currentTheme := chosen, persistedTheme := chosen } ∧
    (∀ selected loadSucceeds,
      (themeOnDidAccept st selected loadSucceeds).1 ≠ st →
        loadSucceeds = true) := by
  refine ⟨?_, ?_, ?_⟩
  · simp only [themeOnDidAccept]
    rw [if_pos hnew]
    rfl
  · simp only [themeOnDidAccept]
    rw [if_pos hnew]
    rfl
  · intro selected loadSucceeds hne
    cases loadSucceeds with
    | true => rfl
    | false =>
      exfalso
      apply hne
      cases selected with
      | none => rfl
      | some c =>
        simp only [themeOnDidAccept]
        split <;> rfl

/-- Closed instance of the theme-switch contract: switching from
"vitesse-dark" to "nord" with a failing load leaves the state alone. -/
theorem claim_C8_theme_switch_witness :
    ("nord" : String) ≠ "vitesse-dark" ∧
    themeOnDidAccept
        { currentTheme := "vitesse-dark", persistedTheme := "vitesse-dark" }
        (some "nord") false =
      ({ currentTheme := "vitesse-dark", persistedTheme := "vitesse-dark" },
        .loadFailed "nord") :=
  ⟨by decide,
    (claim_C8_theme_switch
      { currentTheme := "vitesse-dark", persistedTheme := "vitesse-dark" }
      "nord" (by decide)).1⟩

/-- C9: with no workspace folder open, `runRipgrep` spawns nothing and
resolves with exactly the one placeholder record, and the webview renders
that record as an ordinary result row (not as the no-results notice). -/
theorem claim_C9_no_workspace_placeholder (term : String) :
    runRipgrepStart none term =
      .immediate [{ label := "Please open a project folder first."
                    description := ""
                    filePath := ""
                    line := some 0 }] ∧
    (∀ results, runRipgrepStart none term = .immediate results →
      renderResults results ≠ .noResults) := by
  constructor
  · rfl
  · intro results h
    unfold runRipgrepStart at h
    cases h
    decide

/-- Helper: `String.append` associates. -/
lemma stringAppend_assoc (a b c : String) : a ++ b ++ c = a ++ (b ++ c) :=
  String.ext (by simp [String.data_append, List.append_assoc])

/-- Helper: the spawn-failure rejection and the exit-code rejection are
distinct values (their messages start with different characters). -/
lemma spawnError_ne_exitError (m s c : String) :
    runRipgrepSpawnError m ≠ runRipgrepExitError s c := by
  intro h
  have h1 : (runRipgrepSpawnError m).data.head? = some 'F' := by
    cases m with | mk d => rfl
  have h2 : (runRipgrepExitError s c).data.head? = some 'R' := by
    cases s with | mk ds => cases c with | mk dc => rfl
  rw [h] at h1
  rw [h1] at h2
  exact absurd h2 (by decide)

/-- C4: the `close` handler resolves for exit codes 0 and 1 (exit 1 with the
tool's empty "no matches" stdout resolving to zero matches); every other
exit code rejects with a message that carries the captured stderr and the
invoked command line as contiguous parts; spawn failure rejects with a
distinct value carrying the OS error message. -/
theorem claim_C4_exit_code_contract (term root : String) (code : Int)
    (stdout stderr osMsg : String) :
    ((code = 0 ∨ code = 1) →
      ∃ rs, runRipgrepClose term root code stdout stderr = .ok rs) ∧
    (code = 1 → stdout = "" →
      runRipgrepClose term root code stdout stderr = .ok []) ∧
    (code ≠ 0 → code ≠ 1 →
      runRipgrepClose term root code stdout stderr =
        .error ("Ripgrep Error: " ++
          (stderr ++ ("\nCommand: " ++ ripgrepCommandLine term)))) ∧
    runRipgrepSpawnError osMsg =
      "Failed to start Ripgrep process: " ++ osMsg ∧
    (∀ s c, runRipgrepSpawnError osMsg ≠ runRipgrepExitError s c) := by
  refine ⟨?_, ?_, ?_, rfl, fun s c => spawnError_ne_exitError osMsg s c⟩
  · intro h01
    unfold runRipgrepClose
    rw [if_neg (by omega)]
    exact ⟨_, rfl⟩
  · intro h1 hs
    subst hs
    unfold runRipgrepClose
    rw [if_neg (by omega)]
    rfl
  · intro h0 h1
    unfold runRipgrepClose
    rw [if_pos ⟨h0, h1⟩]
    simp only [runRipgrepExitError, stringAppend_assoc]

/-- Closed instance of the exit-code contract: exit 1 with empty stdout
resolves to no matches, exit 2 rejects with the stderr-carrying message,
and the spawn error for "ENOENT" differs from it. -/
theorem claim_C4_exit_code_contract_witness :
    runRipgrepClose "foo" "/w" 1 "" "" = .ok [] ∧
    runRipgrepClose "foo" "/w" 2 "" "boom" =
      .error ("Ripgrep Error: " ++
        ("boom" ++ ("\nCommand: " ++ ripgrepCommandLine "foo"))) ∧
    runRipgrepSpawnError "ENOENT" ≠ runRipgrepExitError "boom"
      (ripgrepCommandLine "foo") :=
  ⟨(claim_C4_exit_code_contract "foo" "/w" 1 "" "" "ENOENT").2.1 rfl rfl,
   (claim_C4_exit_code_contract "foo" "/w" 2 "" "boom" "ENOENT").2.2.1
     (by decide) (by decide),
   (claim_C4_exit_code_contract "foo" "/w" 2 "" "boom" "ENOENT").2.2.2.2
     "boom" (ripgrepCommandLine "foo")⟩

/-- C5 counterexample: a `getPreview` request arriving while the
highlighter is absent performs zero (not one) initialization attempts — the
guard returns early without retrying `createHighlighter`. -/
theorem claim_C5_counterexample :
    (getPreviewHandler { shikiLoaded := true, highlighterPresent := false }
        { filePath := "/w/a.ts", line := "3", searchTerm := "foo" }) =
      { state := { shikiLoaded := true, highlighterPresent := false }
        initAttempts := 0
        proceeds := false } ∧
    (getPreviewHandler { shikiLoaded := true, highlighterPresent := false }
        { filePath := "/w/a.ts", line := "3", searchTerm := "foo" }).initAttempts
      ≠ 1 := by
  constructor
  · rfl
  · decide

/-- C5 (amended): while the highlighter is absent every preview request is
an early-returning no-op that performs no initialization attempt;
re-initialization is instead attempted exactly once by the telescope
command callback whenever it runs with the highlighter absent and the Shiki
module loaded, the highlighter existing afterwards exactly when that
attempt succeeds. -/
theorem claim_C5_absent_highlighter_behavior (st : ExtState)
    (req : PreviewRequest) (habsent : st.highlighterPresent = false)
    (initSucceeds : Bool) :
    getPreviewHandler st req =
      { state := st, initAttempts := 0, proceeds := false } ∧
    (st.shikiLoaded = true →
      telescopeCommandInit st initSucceeds =
        ({ st with highlighterPresent := initSucceeds }, 1)) := by
  constructor
  · unfold getPreviewHandler
    rw [if_pos (Or.inr (Or.inr habsent))]
  · intro hshiki
    unfold telescopeCommandInit
    rw [if_pos ⟨habsent, hshiki⟩]

/-- Closed instance of the amended C5 behavior with a loaded Shiki module,
an absent highlighter, and a succeeding re-initialization. -/
theorem claim_C5_absent_highlighter_behavior_witness :
    ({ shikiLoaded := true, highlighterPresent := false } :
      ExtState).highlighterPresent = false ∧
    getPreviewHandler { shikiLoaded := true, highlighterPresent := false }
        { filePath := "/w/a.ts", line := "3", searchTerm := "foo" } =
      { state := { shikiLoaded := true, highlighterPresent := false }
        initAttempts := 0
        proceeds := false } ∧
    telescopeCommandInit
        { shikiLoaded := true, highlighterPresent := false } true =
      ({ shikiLoaded := true, highlighterPresent := true }, 1) :=
  ⟨rfl,
   (claim_C5_absent_highlighter_behavior
     { shikiLoaded := true, highlighterPresent := false }
     { filePath := "/w/a.ts", line := "3", searchTerm := "foo" } rfl true).1,
   (claim_C5_absent_highlighter_behavior
     { shikiLoaded := true, highlighterPresent := false }
     { filePath := "/w/a.ts", line := "3", searchTerm := "foo" } rfl true).2 rfl⟩

/-- C3 counterexample: for the output line `"a.ts:1:2: foo "` the stored
match text is `"foo"`, not the plain rejoin `" foo "` of the fields from
the 4th onward — the source additionally applies `.trim()`. -/
theorem claim_C3_counterexample :
    (parseRipgrepLine "/w" "a.ts:1:2: foo ").map RipgrepResult.description =
      some "foo" ∧
    joinWith ":" ((jsSplit ':' "a.ts:1:2: foo ").drop 3) = " foo " ∧
    ("foo" : String) ≠ " foo " := by
  refine ⟨?_, by decide, by decide⟩
  decide

/-- C3 (amended): a non-empty output line yields a `SearchMatch` exactly
when it has at least 4 colon-delimited fields, the match text being the
rejoin of all fields from the 4th onward (colons preserved) trimmed of
leading and trailing whitespace; lines with fewer fields parse to nothing,
and an exit-0 close still resolves (with the parsable lines only), so a
malformed line never fails the search. -/
theorem claim_C3_parse_shape (root rawLine term stdout stderr : String)
    (hne : rawLine ≠ "") :
    ((parseRipgrepLine root rawLine).isSome ↔
      4 ≤ (jsSplit ':' rawLine).length) ∧
    (∀ r, parseRipgrepLine root rawLine = some r →
      r.description = jsTrim (joinWith ":" ((jsSplit ':' rawLine).drop 3))) ∧
    runRipgrepClose term root 0 stdout stderr =
      .ok (parseStdout root stdout) := by
  refine ⟨?_, ?_, ?_⟩
  · unfold parseRipgrepLine
    by_cases h : (jsSplit ':' rawLine).length < 4
    · rw [if_pos h]
      simp
      omega
    · rw [if_neg h]
      simp
      omega
  · intro r hr
    unfold parseRipgrepLine at hr
    by_cases h : (jsSplit ':' rawLine).length < 4
    · rw [if_pos h] at hr
      exact absurd hr (by simp)
    · rw [if_neg h] at hr
      have := Option.some.inj hr
      rw [← this]
  · unfold runRipgrepClose
    rw [if_neg (by omega)]

/-- Closed instance of the parse shape at the line `"a.ts:3:5:a:b"` (five
fields, colons inside the match text preserved). -/
theorem claim_C3_parse_shape_witness :
    ("a.ts:3:5:a:b" : String) ≠ "" ∧
    (parseRipgrepLine "/w" "a.ts:3:5:a:b").isSome ∧
    ({ label := "a.ts:3", description := "a:b", filePath := "/w/a.ts",
        line := some 3 } : RipgrepResult).description =
      jsTrim (joinWith ":" ((jsSplit ':' "a.ts:3:5:a:b").drop 3)) :=
  ⟨by decide,
   (claim_C3_parse_shape "/w" "a.ts:3:5:a:b" "t" "" "" (by decide)).1.mpr
     (by decide),
   (claim_C3_parse_shape "/w" "a.ts:3:5:a:b" "t" "" "" (by decide)).2.1 _
     (by decide)⟩

/-- A digits-only decimal numeral (what "the second field is a decimal
integer" means for a ripgrep line-number field). -/
def isDecimalIntegerLit (s : String) : Bool :=
  !s.toList.isEmpty && s.toList.all Char.isDigit

/-- C10: parsing checks only the field count, never numeric content: a line
with at least 4 fields whose second field is not a decimal numeral is still
turned into a `SearchMatch`, whose `line` field is just the `parseInt`
result of that field (possibly `NaN`, modelled `none`) — the record is not
dropped as malformed. -/
theorem claim_C10_no_numeric_validation (root rawLine : String)
    (hfields : 4 ≤ (jsSplit ':' rawLine).length)
    (hnotnum : isDecimalIntegerLit ((jsSplit ':' rawLine).getD 1 "") = false) :
    ∃ r, parseRipgrepLine root rawLine = some r ∧
      r.line = jsParseInt ((jsSplit ':' rawLine).getD 1 "") := by
  unfold parseRipgrepLine
  rw [if_neg (by omega)]
  exact ⟨_, rfl, rfl⟩

/-- Closed instance at `"a.ts:x7:3:hello"`: the second field `"x7"` is not
numeric, yet a record is produced, with `line = NaN` (`parseInt("x7")`). -/
theorem claim_C10_no_numeric_validation_witness :
    4 ≤ (jsSplit ':' "a.ts:x7:3:hello").length ∧
    isDecimalIntegerLit "x7" = false ∧
    ∃ r, parseRipgrepLine "/w" "a.ts:x7:3:hello" = some r ∧ r.line = none := by
  refine ⟨by decide, by decide, ?_⟩
  obtain ⟨r, hr, hline⟩ := claim_C10_no_numeric_validation "/w"
    "a.ts:x7:3:hello" (by decide) (by decide)
  refine ⟨r, hr, ?_⟩
  rw [hline]
  decide

/-- Helper: character-level split never returns the empty list. -/
lemma splitOnChar_ne_nil (c : Char) (l : List Char) : splitOnChar c l ≠ [] := by
  cases l with
  | nil => simp [splitOnChar]
  | cons x xs =>
    cases h : splitOnChar c xs with
    | nil => simp [splitOnChar, h]
    | cons hd tl =>
      simp only [splitOnChar, h]
      split <;> simp

/-- Helper: a chunk without the separator splits into itself. -/
lemma splitOnChar_of_not_mem (c : Char) (l : List Char) (h : c ∉ l) :
    splitOnChar c l = [l] := by
  induction l with
  | nil => rfl
  | cons x xs ih =>
    have hx : x ≠ c := fun e => h (e ▸ List.mem_cons_self x xs)
    have hxs : c ∉ xs := fun m => h (List.mem_cons_of_mem _ m)
    simp [splitOnChar, ih hxs, hx]

/-- Helper: splitting after a separator-free chunk peels that chunk off. -/
lemma splitOnChar_append (c : Char) (xs ys : List Char) (h : c ∉ xs) :
    splitOnChar c (xs ++ c :: ys) = xs :: splitOnChar c ys := by
  induction xs with
  | nil =>
    cases hy : splitOnChar c ys with
    | nil => exact absurd hy (splitOnChar_ne_nil c ys)
    | cons hd tl => simp [splitOnChar, hy]
  | cons x xs ih =>
    have hx : x ≠ c := fun e => h (e ▸ List.mem_cons_self x xs)
    have hxs : c ∉ xs := fun m => h (List.mem_cons_of_mem _ m)
    simp only [List.cons_append, splitOnChar, List.append_eq]
    rw [ih hxs]
    simp [hx]

/-- Helper: rebuilding a string from its characters is the identity. -/
lemma stringMk_toList (s : String) : String.mk s.toList = s := rfl

/-- Helper: character list of `s ++ "\n" ++ r`. -/
lemma toList_sep_append (s r : String) :
    (s ++ "\n" ++ r).toList = s.toList ++ '\n' :: r.toList := by
  cases s with
  | mk a =>
    cases r with
    | mk b => simp [String.toList, String.data_append]

/-- `n + 1` copies of the line `s` joined by newlines, the shape of a
ripgrep stdout in which one file contributes every match. -/
def repeatLines (s : String) : Nat → String
  | 0 => s
  | n + 1 => s ++ "\n" ++ repeatLines s n

/-- Helper: newline-splitting `repeatLines s n` recovers the copies. -/
lemma jsSplit_repeatLines (s : String) (h : '\n' ∉ s.toList) :
    ∀ n, jsSplit '\n' (repeatLines s n) = List.replicate (n + 1) s := by
  intro n
  induction n with
  | zero =>
    unfold repeatLines jsSplit
    rw [splitOnChar_of_not_mem _ _ h]
    simp [stringMk_toList]
  | succ k ih =>
    unfold repeatLines jsSplit
    rw [toList_sep_append, splitOnChar_append _ _ _ h]
    unfold jsSplit at ih
    simp only [List.map_cons, stringMk_toList, ih, List.replicate_succ]

/-- Helper: filtering copies of an element that satisfies the predicate
keeps all of them. -/
lemma filter_replicate_pos {α : Type} (p : α → Bool) (a : α) (hp : p a = true) :
    ∀ n, (List.replicate n a).filter p = List.replicate n a := by
  intro n
  induction n with
  | zero => rfl
  | succ k ih => simp [List.replicate_succ, List.filter_cons, hp, ih]

/-- Helper: `filterMap` over copies of an element that maps to `some b`. -/
lemma filterMap_replicate_some {α β : Type} (f : α → Option β) (a : α)
    (b : β) (hf : f a = some b) :
    ∀ n, (List.replicate n a).filterMap f = List.replicate n b := by
  intro n
  induction n with
  | zero => rfl
  | succ k ih => simp [List.replicate_succ, List.filterMap_cons, hf, ih]

/-- A concrete ripgrep stdout: 501 `--vimgrep` matches, all in `a.ts`. -/
def capStdout : String := repeatLines "a.ts:7:1:x" 500

/-- The record each of those 501 stdout lines parses to. -/
def capRecord : RipgrepResult :=
  { label := "a.ts:7", description := "x", filePath := "/w/a.ts", line := some 7 }

/-- C1: the result-shaping caps are absent from the code.  On an exit-0
close whose stdout holds 501 matches all contributed by the single file
`a.ts`, `runRipgrep` resolves with all 501 records: the total exceeds the
documented global ceiling of 500 and the single file's contribution
exceeds the documented per-file ceiling of 100 (README: "Smart result
limiting (max 500 results, 100 per file)"). -/
theorem claim_C1_caps_absent :
    runRipgrepClose "foo" "/w" 0 capStdout "" =
      .ok (parseStdout "/w" capStdout) ∧
    parseStdout "/w" capStdout = List.replicate 501 capRecord ∧
    (parseStdout "/w" capStdout).length = 501 ∧
    (∀ r ∈ parseStdout "/w" capStdout, r.filePath = "/w/a.ts") ∧
    500 < 501 ∧ 100 < 501 := by
  have hsplit : jsSplit '\n' capStdout = List.replicate 501 "a.ts:7:1:x" :=
    jsSplit_repeatLines "a.ts:7:1:x" (by decide) 500
  have hparse : parseStdout "/w" capStdout = List.replicate 501 capRecord := by
    unfold parseStdout
    rw [hsplit, filter_replicate_pos _ _ (by decide),
      filterMap_replicate_some (parseRipgrepLine "/w") "a.ts:7:1:x" capRecord
        (by decide)]
  refine ⟨rfl, hparse, ?_, ?_, by omega, by omega⟩
  · rw [hparse, List.length_replicate]
  · intro r hr
    rw [hparse] at hr
    rw [List.eq_of_mem_replicate hr]
    rfl

/-- Helper: bounds of the computed window (used by the stitching
development). -/
lemma computeWindow_bounds (target total size : Int) (htotal : 0 ≤ total)
    (hsize : 0 < size) :
    0 ≤ (computeWindow target total size).1 ∧
    (computeWindow target total size).1 ≤ (computeWindow target total size).2 ∧
    (computeWindow target total size).2 ≤ total := by
  unfold computeWindow
  dsimp only
  split <;> omega

/-- Helper: with in-range bounds and a tokenizer that produced exactly one
token line per window line, the stitched table is a dense table (no holes):
`startLine` empty lines, the visible token lines, then empty lines to the
end of the file, each wrapped in `some`. -/
lemma stitchTokenTable_eq_map_some (total s e : Nat) (visible : List TokenLine)
    (hse : s ≤ e) (het : e ≤ total) (hv : visible.length = e - s) :
    stitchTokenTable total s e visible =
      (List.replicate s ([] : TokenLine) ++ (visible ++
        List.replicate (total - e) ([] : TokenLine))).map some := by
  have hA : (List.replicate s ([] : TokenLine)).length = s :=
    List.length_replicate s []
  have hC : (List.replicate (total - e) ([] : TokenLine)).length = total - e :=
    List.length_replicate (total - e) []
  apply List.ext_getElem?
  intro i
  by_cases h1 : i < total
  · have hL : (stitchTokenTable total s e visible)[i]? =
        some (stitchEntry s e visible i) := by
      unfold stitchTokenTable
      rw [List.getElem?_map]
      simp [List.getElem?_range, h1]
    rw [hL, List.getElem?_map]
    by_cases h2 : i < s
    · rw [List.getElem?_append_left (by omega)]
      rw [List.getElem?_replicate_of_lt h2]
      unfold stitchEntry
      rw [if_pos h2]
      rfl
    · rw [List.getElem?_append_right (by omega)]
      rw [hA]
      by_cases h3 : e ≤ i
      · rw [List.getElem?_append_right (by omega)]
        rw [hv]
        rw [List.getElem?_replicate_of_lt (by omega)]
        unfold stitchEntry
        rw [if_neg h2, if_pos h3]
        rfl
      · rw [List.getElem?_append_left (by omega)]
        unfold stitchEntry
        rw [if_neg h2, if_neg h3]
        rw [List.get?_eq_getElem?]
        rw [List.getElem?_eq_getElem (by omega)]
        rfl
  · rw [List.getElem?_eq_none (by simp [stitchTokenTable]; omega),
      List.getElem?_eq_none (by simp [hv]; omega)]

/-- Helper: each slot of the render loop's output, by paint-window-relative
index: the row for absolute line `ps + k`, numbered `ps + k + 1`, blank
exactly when its token line is empty. -/
lemma paintRows_spec (tokenLines : List TokenLine) (ps pe : Nat) :
    (paintRows tokenLines ps pe).length = pe - ps ∧
    ∀ k, k < pe - ps →
      (paintRows tokenLines ps pe).getD k { lineNumber := 0, content := .blank } =
        { lineNumber := ps + k + 1
          content :=
            if (tokenLines.getD (ps + k) []).length = 0 then RowContent.blank
            else RowContent.spans (tokenLines.getD (ps + k) []) } := by
  constructor
  · simp [paintRows]
  · intro k hk
    unfold paintRows
    rw [List.getD_eq_getElem?_getD, List.getElem?_map, List.getElem?_range']
    · simp
    · exact hk

/-- C6: under the tokenizer contract of §4.4 (one token line per input
line), every token table the windowed `getPreview` handler sends is a dense
table of length equal to the file's total line count; every entry outside
the computed window `[startLine, endLine)` is the empty token sequence; and
the render loop paints one row per paint-window index with the absolute
1-based line number — an empty entry yields a blank row, never a skipped
one. -/
theorem claim_C6_token_table_dense (allLines : List String) (targetLine1 : Int)
    (codeToTokens : List String → List TokenLine)
    (hct : ∀ ls, (codeToTokens ls).length = ls.length) :
    ∃ full : List TokenLine,
      backendPreviewTable allLines targetLine1 codeToTokens = full.map some ∧
      full.length = allLines.length ∧
      (∀ i,
        (i < (computeWindow (targetLine1 - 1) (allLines.length : Int) 100).1.toNat ∨
          ((computeWindow (targetLine1 - 1) (allLines.length : Int) 100).2.toNat ≤ i ∧
            i < allLines.length)) →
        full.getD i [] = []) ∧
      (∀ ps pe, (paintRows full ps pe).length = pe - ps ∧
        ∀ k, k < pe - ps →
          (paintRows full ps pe).getD k { lineNumber := 0, content := .blank } =
            { lineNumber := ps + k + 1
              content :=
                if (full.getD (ps + k) []).length = 0 then RowContent.blank
                else RowContent.spans (full.getD (ps + k) []) }) := by
  obtain ⟨hw0, hw12, hw2t⟩ := computeWindow_bounds (targetLine1 - 1)
    (allLines.length : Int) 100 (by omega) (by omega)
  set w := computeWindow (targetLine1 - 1) (allLines.length : Int) 100 with hwdef
  have hse : w.1.toNat ≤ w.2.toNat := Int.toNat_le_toNat hw12
  have het : w.2.toNat ≤ allLines.length := by omega
  have hvis : (codeToTokens ((allLines.drop w.1.toNat).take
      (w.2.toNat - w.1.toNat))).length = w.2.toNat - w.1.toNat := by
    rw [hct]
    rw [List.length_take, List.length_drop]
    omega
  refine ⟨List.replicate w.1.toNat ([] : TokenLine) ++
    (codeToTokens ((allLines.drop w.1.toNat).take (w.2.toNat - w.1.toNat)) ++
      List.replicate (allLines.length - w.2.toNat) ([] : TokenLine)),
    ?_, ?_, ?_, ?_⟩
  · exact stitchTokenTable_eq_map_some allLines.length w.1.toNat w.2.toNat _
      hse het hvis
  · simp [hvis]
    omega
  · intro i hi
    rcases hi with hlt | ⟨hge, hitot⟩
    · rw [List.getD_eq_getElem?_getD,
        List.getElem?_append_left (by rw [List.length_replicate]; exact hlt),
        List.getElem?_replicate_of_lt hlt]
      rfl
    · rw [List.getD_eq_getElem?_getD,
        List.getElem?_append_right (by rw [List.length_replicate]; omega),
        List.length_replicate,
        List.getElem?_append_right (by rw [hvis]; omega),
        hvis,
        List.getElem?_replicate_of_lt (by omega)]
      rfl
  · intro ps pe
    exact paintRows_spec _ ps pe

/-- Closed instance of the dense-table property: a two-line file previewed
at line 1 with a one-token-per-line tokenizer yields a dense table of
length 2. -/
theorem claim_C6_token_table_dense_witness :
    (∀ ls : List String,
      (ls.map (fun l => [({ content := l, color := "c" } : Token)])).length
        = ls.length) ∧
    ∃ full : List TokenLine,
      backendPreviewTable ["const a", "b"] 1
          (fun ls => ls.map (fun l => [{ content := l, color := "c" }])) =
        full.map some ∧
      full.length = 2 := by
  refine ⟨fun ls => by simp, ?_⟩
  obtain ⟨full, h1, h2, h3, h4⟩ := claim_C6_token_table_dense ["const a", "b"] 1
    (fun ls => ls.map (fun l => [{ content := l, color := "c" }]))
    (fun ls => by simp)
  exact ⟨full, h1, h2⟩

/-- Closed instance of the no-workspace behavior at the term "foo". -/
theorem claim_C9_no_workspace_placeholder_witness :
    runRipgrepStart none "foo" = .immediate [{
      label := "Please open a project folder first."
      description := ""
      filePath := ""
      line := some 0 }] ∧
    renderResults [{
      label := "Please open a project folder first."
      description := ""
      filePath := ""
      line := some 0 }] ≠ .noResults :=
  ⟨(claim_C9_no_workspace_placeholder "foo").1,
   (claim_C9_no_workspace_placeholder "foo").2 _
     (claim_C9_no_workspace_placeholder "foo").1⟩
